import Mathlib

/-!
Shallow embedding of the foldVR molecular viewer core, translated from
`src/molecule/PDBLoader.ts`, `src/scenes/ConfinedSpaceXR.ts`,
`src/ui/UIPanelManager.ts` (including the historical `PdbInputPanel`)
and the `RadialMenu` thumbstick-hover path.

JavaScript numbers are modelled as `Option ℚ` with `none` playing the
role of NaN; the exotic float values (±Infinity, −0) never arise in the
fragments exercised here and are outside the model.  Real-valued
trigonometry (`Math.atan2`, `Math.hypot`) is modelled over `ℝ`.
-/

/- The Batteries rational-arithmetic definitions are `@[irreducible]`,
which blocks `decide` on concrete `ℚ` computations; restore unfolding so
that the embedded program can be evaluated in proofs. -/
set_option allowUnsafeReducibility true
attribute [semireducible] Rat.add Rat.mul Rat.inv Rat.sub Rat.ofScientific

namespace FoldVR

/-- A JavaScript number: a rational value or NaN (`none`). -/
abbrev JSNum := Option ℚ

/-- JS `+` : NaN propagates. -/
def jsAdd : JSNum → JSNum → JSNum
  | some a, some b => some (a + b)
  | _, _ => none

/-- JS `-` : NaN propagates. -/
def jsSub : JSNum → JSNum → JSNum
  | some a, some b => some (a - b)
  | _, _ => none

/-- JS `*` : NaN propagates. -/
def jsMul : JSNum → JSNum → JSNum
  | some a, some b => some (a * b)
  | _, _ => none

/-- JS `<` : every comparison with NaN is false. -/
def jsLtb : JSNum → JSNum → Bool
  | some a, some b => decide (a < b)
  | _, _ => false

/-- JS `x / 10` (used by `loadPDB` to rescale coordinates): NaN propagates. -/
def jsDiv10 : JSNum → JSNum
  | some a => some (a / 10)
  | none => none

/-- Digit run to natural number, most significant first. -/
def digitsToNat (ds : List Char) : ℕ :=
  ds.foldl (fun n c => 10 * n + (c.toNat - 48)) 0

/-- Signed digit run after the `e`/`E` of a float literal.  JS `parseFloat`
takes the longest valid prefix, so a missing digit run after the marker
contributes exponent 0 (the literal stops before the `e`). -/
def expDigits : List Char → ℤ
  | '-' :: t =>
    let ds := t.takeWhile Char.isDigit
    if ds.isEmpty then 0 else -(digitsToNat ds : ℤ)
  | '+' :: t =>
    let ds := t.takeWhile Char.isDigit
    if ds.isEmpty then 0 else (digitsToNat ds : ℤ)
  | t =>
    let ds := t.takeWhile Char.isDigit
    if ds.isEmpty then 0 else (digitsToNat ds : ℤ)

/-- Exponent part of a float literal (`e`/`E` marker). -/
def parseExpPart : List Char → ℤ
  | 'e' :: t => expDigits t
  | 'E' :: t => expDigits t
  | _ => 0

/-- Model of JS `parseFloat` on decimal notation: skip leading whitespace,
optional sign, digits, optional fraction, optional exponent; the longest
valid prefix is converted and trailing characters are ignored; NaN
(`none`) when no digit is found.  JS strings are modelled as `List Char`
throughout the parser. -/
def parseFloatQ (s : List Char) : JSNum :=
  let cs := s.dropWhile Char.isWhitespace
  let signAndRest : ℚ × List Char :=
    match cs with
    | '-' :: t => (-1, t)
    | '+' :: t => (1, t)
    | _ => (1, cs)
  let sign := signAndRest.1
  let cs1 := signAndRest.2
  let ip := cs1.takeWhile Char.isDigit
  let rest1 := cs1.drop ip.length
  let fp :=
    match rest1 with
    | '.' :: t => t.takeWhile Char.isDigit
    | _ => []
  let rest2 :=
    match rest1 with
    | '.' :: t => t.drop fp.length
    | _ => rest1
  if ip.isEmpty && fp.isEmpty then none
  else
    some (sign * ((digitsToNat ip : ℚ) + (digitsToNat fp : ℚ) / 10 ^ fp.length) *
      (10 : ℚ) ^ parseExpPart rest2)

/-- `Atom` from `PDBLoader.ts`: coordinates and element symbol. -/
structure Atom where
  x : JSNum
  y : JSNum
  z : JSNum
  element : String
deriving DecidableEq, Repr

/-- Atom with plain rational coordinates (test helper). -/
def mkAtom (x y z : ℚ) (e : String) : Atom :=
  ⟨some x, some y, some z, e⟩

/-- JS `String.prototype.substr(start, len)` (clamping at the ends). -/
def jsSubstr (s : List Char) (start len : ℕ) : List Char :=
  (s.drop start).take len

/-- JS `String.prototype.trim()`: strip whitespace from both ends. -/
def jsTrim (s : List Char) : List Char :=
  ((s.dropWhile Char.isWhitespace).reverse.dropWhile Char.isWhitespace).reverse

/-- JS `String.prototype.startsWith(pre)`. -/
def jsStartsWith (s pre : List Char) : Bool :=
  pre.isPrefixOf s

/-- Split a character sequence at every newline. -/
def splitOnNewline : List Char → List (List Char)
  | [] => [[]]
  | c :: rest =>
    let r := splitOnNewline rest
    if c = '\n' then [] :: r
    else (c :: r.headI) :: r.tail

/-- Strip one trailing carriage return (the `\r?` of the split pattern). -/
def stripTrailingCR (cs : List Char) : List Char :=
  if cs.getLast? = some '\r' then cs.dropLast else cs

/-- `text.split(/\r?\n/)`: split at newlines, each line losing one
trailing carriage return. -/
def splitLines (text : String) : List (List Char) :=
  (splitOnNewline text.toList).map stripTrailingCR

/-- One iteration of the `parsePDB` loop: a line starting with `ATOM` or
`HETATM` yields an atom — X/Y/Z from columns 30–37, 38–45, 46–53, element
from columns 76–77 with fallback to columns 12–13 when blank. -/
def parseAtomLine (line : List Char) : Option Atom :=
  if jsStartsWith line "ATOM".toList || jsStartsWith line "HETATM".toList then
    let x := parseFloatQ (jsSubstr line 30 8)
    let y := parseFloatQ (jsSubstr line 38 8)
    let z := parseFloatQ (jsSubstr line 46 8)
    let e76 := jsTrim (jsSubstr line 76 2)
    let element := if e76 = [] then jsTrim (jsSubstr line 12 2) else e76
    some { x := x, y := y, z := z, element := String.mk element }
  else
    none

/-- `parsePDB` from `PDBLoader.ts`. -/
def parsePDB (text : String) : List Atom :=
  (splitLines text).filterMap parseAtomLine

/-- The representation styles built by `PDBLoader.ts`. -/
inductive RepKind
  | ballStick
  | spaceFill
  | wireframe
  | transparentSurface
  | ribbon
  | pointCloud
deriving DecidableEq, Repr

/-- Load-time failures of `loadPDB` (`throw new Error(...)`). -/
inductive LoadError
  | fetchFailed
  | structureTooLarge
deriving DecidableEq, Repr

/-- The representation-selection branch of `loadPDB`
(`PDBLoader.ts` lines 109–119), as a function of the atom count. -/
def selectRepresentation (n : ℕ) : Except LoadError RepKind :=
  if n > 50000 then .error .structureTooLarge
  else if n > 20000 then .ok .pointCloud
  else if n > 5000 then .ok .wireframe
  else .ok .ballStick

/-- Squared JS distance `(a.x-b.x)**2 + (a.y-b.y)**2 + (a.z-b.z)**2`. -/
def dist2 (a b : Atom) : JSNum :=
  jsAdd
    (jsAdd (jsMul (jsSub a.x b.x) (jsSub a.x b.x))
           (jsMul (jsSub a.y b.y) (jsSub a.y b.y)))
    (jsMul (jsSub a.z b.z) (jsSub a.z b.z))

/-- `1.8 ** 2`, the bond cutoff of `createBallStick`. -/
def bondCutoffSq : ℚ := ((18 : ℚ) / 10) ^ 2

/-- Index pairs `(i, j)` visited by the double loop
`for i in [0, n); for j in (i, n)` of `createBallStick`. -/
def allIndexPairs (n : ℕ) : List (ℕ × ℕ) :=
  (List.range n).flatMap fun i =>
    ((List.range n).filter fun j => i < j).map fun j => (i, j)

/-- The bond cylinders created by `createBallStick`
(`PDBLoader.ts` lines 58–78), identified by their index pair: the whole
double loop is skipped for 2000 atoms or more, and a pair bonds exactly
when its squared distance is strictly below `1.8 ** 2`. -/
def ballStickBonds (atoms : List Atom) : List (ℕ × ℕ) :=
  if atoms.length < 2000 then
    (allIndexPairs atoms.length).filter fun p =>
      match atoms[p.1]?, atoms[p.2]? with
      | some a, some b => jsLtb (dist2 a b) (some bondCutoffSq)
      | _, _ => false
  else
    []

/-! ### UIPanelManager (`src/ui/UIPanelManager.ts`) -/

/-- The panel ids owned by `UIPanelManager`. -/
inductive PanelId
  | help
  | settings
  | visuals
  | quickLoad
deriving DecidableEq, Repr

/-- The visibility flags of the four panels. -/
structure PanelState where
  helpVisible : Bool
  settingsVisible : Bool
  visualsVisible : Bool
  quickLoadVisible : Bool
deriving DecidableEq, Repr

def PanelState.visible (s : PanelState) : PanelId → Bool
  | .help => s.helpVisible
  | .settings => s.settingsVisible
  | .visuals => s.visualsVisible
  | .quickLoad => s.quickLoadVisible

/-- Every panel hidden (each panel's `hide()`). -/
def PanelState.hideAll : PanelState := ⟨false, false, false, false⟩

/-- `panel.show()` for the panel named by `id`. -/
def PanelState.show (s : PanelState) : PanelId → PanelState
  | .help => { s with helpVisible := true }
  | .settings => { s with settingsVisible := true }
  | .visuals => { s with visualsVisible := true }
  | .quickLoad => { s with quickLoadVisible := true }

/-- `UIPanelManager.toggle(id)` (lines 79–91): remember whether the target
was closed, hide every panel, then show the target only if it was closed. -/
def toggle (s : PanelState) (id : PanelId) : PanelState :=
  let willOpen := !(s.visible id)
  if willOpen then PanelState.hideAll.show id else PanelState.hideAll

/-- The state in which exactly the panel `id` is visible. -/
def PanelState.only (id : PanelId) : PanelState := PanelState.hideAll.show id

/-- Number of visible panels. -/
def visibleCount (s : PanelState) : ℕ :=
  (if s.helpVisible then 1 else 0) + (if s.settingsVisible then 1 else 0) +
    (if s.visualsVisible then 1 else 0) + (if s.quickLoadVisible then 1 else 0)

/-! ### PdbInputPanel.select (historical block of `UIPanelManager.ts`) -/

/-- The text mutation of `PdbInputPanel.select()` given the hovered key
(`none` covers a consumed close button and `hoverIndex === -1`, which
leave the text unchanged).  JS strings are modelled as `List Char`;
`text.slice(0, -1)` is `dropLast`, `text += ch` is `++ [ch]`.  The `'L'`
key fires the load callback and leaves the text unchanged. -/
def pdbInputSelect (text : List Char) (hovered : Option Char) : List Char :=
  match hovered with
  | none => text
  | some ch =>
    if ch = '←' then text.dropLast
    else if ch = 'L' then text
    else if text.length < 4 then text ++ [ch]
    else text

/-! ### RadialMenu thumbstick hover (`ConfinedSpaceXR.animate`, lines 605–618) -/

/-- `Math.atan2(x, y)`: the argument of the point with abscissa `y` and
ordinate `x`, in `(-π, π]`. -/
noncomputable def jsAtan2 (x y : ℝ) : ℝ := Complex.arg ⟨y, x⟩

/-- Truncation toward zero, as used by the JS `%` operator. -/
noncomputable def jsTruncInt (r : ℝ) : ℤ := if r < 0 then ⌈r⌉ else ⌊r⌋

/-- JS remainder `a % b` (sign of the dividend). -/
noncomputable def jsRem (a b : ℝ) : ℝ := a - b * (jsTruncInt (a / b) : ℝ)

/-- The thumbstick dead-zone radius `dead = 0.05`. -/
noncomputable def deadZone : ℝ := 5 / 100

/-- `(angle + 2 * Math.PI) % (2 * Math.PI)` from the hover computation. -/
noncomputable def normAngle (angle : ℝ) : ℝ :=
  jsRem (angle + 2 * Real.pi) (2 * Real.pi)

open Classical in
/-- The hover index computed per frame from the left thumbstick axes: for a
stick radius above the dead-zone, `Math.floor(norm / seg)` with
`seg = 2π / N`; otherwise `-1` (hover cleared). -/
noncomputable def hoverIndexOf (N : ℕ) (x y : ℝ) : ℤ :=
  if deadZone < Real.sqrt (x ^ 2 + y ^ 2) then
    ⌊normAngle (jsAtan2 x y) / (2 * Real.pi / N)⌋
  else
    -1

open Classical in
/-- Modelled from the spec (§4.5): `θ = atan2(x, y)` normalized into
`[0, 2π)` by adding `2π` to negative angles, hover index
`⌊θ / (2π/N)⌋`, and `−1` below the dead-zone. -/
noncomputable def specHoverIndex (N : ℕ) (x y : ℝ) : ℤ :=
  if deadZone < Real.sqrt (x ^ 2 + y ^ 2) then
    ⌊(if jsAtan2 x y < 0 then jsAtan2 x y + 2 * Real.pi else jsAtan2 x y) /
      (2 * Real.pi / N)⌋
  else
    -1

/-- The leading whitespace-delimited token of a line (spec-side notion used
by the record-marker claim). -/
def firstToken (line : String) : String :=
  String.mk (line.toList.takeWhile fun c => !c.isWhitespace)

/-! ### Transition animation (`ConfinedSpaceXR.animate`, lines 523–538) -/

/-- `THREE.MathUtils.lerp`. -/
def lerp (x y t : ℚ) : ℚ := (1 - t) * x + t * y

/-- The transition slice of the scene state: fitted molecule scale,
elapsed progress, whether `transitionNew` / `transitionOld` are set (the
outgoing flag also standing for the group still being in the scene), and
the two groups' uniform scales. -/
structure TransitionState where
  moleculeScale : ℚ
  progress : ℚ
  newActive : Bool
  oldActive : Bool
  newScale : ℚ
  oldScale : ℚ
deriving DecidableEq, Repr

/-- One frame of the transition branch of `animate()`: advance progress by
`delta`, clamp `t = min(progress / 0.5, 1)`, lerp the incoming scale from
`0.01 * moleculeScale` to `moleculeScale` and the outgoing scale the
opposite way, and on `t ≥ 1` remove the outgoing group, set the incoming
group's scale to `(1, 1, 1)` and clear the transition slots. -/
def transitionStep (s : TransitionState) (delta : ℚ) : TransitionState :=
  if s.newActive then
    let duration : ℚ := 1 / 2
    let progress := s.progress + delta
    let t := min (progress / duration) 1
    let scaleIn := lerp ((1 / 100) * s.moleculeScale) s.moleculeScale t
    let scaleOut := lerp s.moleculeScale ((1 / 100) * s.moleculeScale) t
    let s1 := { s with
      progress := progress
      newScale := scaleIn
      oldScale := if s.oldActive then scaleOut else s.oldScale }
    if t ≥ 1 then { s1 with oldActive := false, newScale := 1, newActive := false }
    else s1
  else
    s

/-- A transition as set up by `cycleRepresentation` (progress 0, incoming
group built at 1% of the target scale), for a molecule fitted with
`moleculeScale = 1/10`. -/
def sampleTransition : TransitionState :=
  { moleculeScale := 1 / 10
    progress := 0
    newActive := true
    oldActive := true
    newScale := 1 / 1000
    oldScale := 1 / 10 }

/-! ### Scene state, loading and representation cycling (`ConfinedSpaceXR.ts`) -/

/-- The molecule-related scene state of `ConfinedSpaceXR`.  Render groups
are identified by numeric ids: `sceneGroups` are the molecule groups in
the scene, `disposedGroups` the ids whose GPU resources were released.
The transition slice is modelled by `TransitionState` above. -/
structure XRState where
  atoms : Option (List Atom)
  repIndex : ℕ
  moleculeScale : ℚ
  moleculeGroup : Option ℕ
  sceneGroups : List ℕ
  disposedGroups : List ℕ
  nextGroupId : ℕ
deriving DecidableEq, Repr

/-- The five user-facing builders, in the order of the `repBuilders`
field (`ConfinedSpaceXR.ts` line 40). -/
def repBuilders : List RepKind :=
  [.ballStick, .spaceFill, .wireframe, .transparentSurface, .ribbon]

/-- `cycleRepresentation()` (lines 322–338): a no-op with a diagnostic
when no molecule is loaded; otherwise advance
`repIndex = (repIndex + 1) % repBuilders.length`, build the new group and
add it to the scene, and make it the current molecule group.  The
transition set-up it performs (progress 0, incoming at 1% scale, old
group outgoing) is the initial `TransitionState` consumed by
`transitionStep`. -/
def cycleRepresentation (s : XRState) : XRState :=
  match s.atoms with
  | none => s
  | some _ =>
    let newId := s.nextGroupId
    { s with
      repIndex := (s.repIndex + 1) % repBuilders.length
      sceneGroups := s.sceneGroups ++ [newId]
      moleculeGroup := some newId
      nextGroupId := newId + 1 }

/-- A fetch response: HTTP success flag and body text. -/
structure FetchResponse where
  ok : Bool
  text : String
deriving DecidableEq, Repr

/-- JS `String.prototype.toUpperCase()` (ASCII fragment). -/
def jsToUpper (s : String) : String :=
  String.mk (s.toList.map Char.toUpper)

/-- The download URL built by `loadPDB`. -/
def pdbUrl (id : String) : String :=
  "https://files.rcsb.org/download/" ++ jsToUpper id ++ ".pdb"

/-- Divide an atom's coordinates by 10 (`loadPDB`'s unit conversion). -/
def scaleAtomDown (a : Atom) : Atom :=
  { a with x := jsDiv10 a.x, y := jsDiv10 a.y, z := jsDiv10 a.z }

/-- `loadPDB` (lines 97–122) with the network suspension modelled by the
response it awaited: a non-success response throws, otherwise the body is
parsed, coordinates are rescaled, and the initial representation is
selected by atom count (which may throw `StructureTooLarge`). -/
def loadPDB (_id : String) (resp : FetchResponse) :
    Except LoadError (List Atom × RepKind) :=
  if !resp.ok then .error .fetchFailed
  else
    let atoms := (parsePDB resp.text).map scaleAtomDown
    match selectRepresentation atoms.length with
    | .error e => .error e
    | .ok kind => .ok (atoms, kind)

/-- `loadPdbId` (lines 283–320): await `loadPDB(pdb.trim())` inside a
`try`; on failure only log, leaving the state untouched; on success
dispose and remove the previous group, install the new atoms and group,
reset `repIndex`, and fit the scale from the measured bounding-box height
(the height measured by `THREE.Box3`, an external graphics computation,
is passed in as `measuredHeight`). -/
def loadPdbId (s : XRState) (pdb : String) (resp : FetchResponse)
    (measuredHeight : ℚ) : XRState :=
  match loadPDB (String.mk (jsTrim pdb.toList)) resp with
  | .error _ => s
  | .ok (atoms, _kind) =>
    let s1 :=
      match s.moleculeGroup with
      | some g =>
        { s with
          disposedGroups := s.disposedGroups ++ [g]
          sceneGroups := s.sceneGroups.erase g }
      | none => s
    let newId := s1.nextGroupId
    { s1 with
      atoms := some atoms
      repIndex := 0
      moleculeScale := if measuredHeight > 0 then 1 / measuredHeight else 1
      moleculeGroup := some newId
      sceneGroups := s1.sceneGroups ++ [newId]
      nextGroupId := newId + 1 }

/-- The single-ATOM-record text blob of §8 of the spec. -/
def singleAtomBlob : String :=
  "ATOM      1  N   ALA A   1      11.104  13.207   2.031  1.00 20.00           N"

/-- A scene state with an empty molecule loaded (test fixture). -/
def sampleScene : XRState :=
  { atoms := some []
    repIndex := 0
    moleculeScale := 1
    moleculeGroup := none
    sceneGroups := []
    disposedGroups := []
    nextGroupId := 0 }

/-- A non-success fetch response (test fixture). -/
def failedResponse : FetchResponse := ⟨false, ""⟩

/-! ## Helper lemmas -/

lemma mem_allIndexPairs {n i j : ℕ} :
    (i, j) ∈ allIndexPairs n ↔ i < j ∧ j < n := by
  unfold allIndexPairs
  simp only [List.mem_flatMap, List.mem_map, List.mem_filter, List.mem_range,
    decide_eq_true_eq, Prod.mk.injEq]
  constructor
  · rintro ⟨a, _, b, ⟨hb, hab⟩, rfl, rfl⟩
    exact ⟨hab, hb⟩
  · rintro ⟨hij, hj⟩
    exact ⟨i, lt_trans hij hj, j, ⟨hj, hij⟩, rfl, rfl⟩

lemma nodup_allIndexPairs (n : ℕ) : (allIndexPairs n).Nodup := by
  unfold allIndexPairs
  rw [List.nodup_flatMap]
  constructor
  · intro i _
    exact ((List.nodup_range n).filter _).map fun a b h => by
      simpa using congrArg Prod.snd h
  · refine (List.pairwise_lt_range n).imp ?_
    intro a b hab
    intro p hpa hpb
    simp only [List.mem_map, List.mem_filter] at hpa hpb
    obtain ⟨ja, _, rfl⟩ := hpa
    obtain ⟨jb, _, hEq⟩ := hpb
    exact absurd (congrArg Prod.fst hEq) (by simpa using hab.ne')

lemma count_eq_one_of_nodup_mem {l : List (ℕ × ℕ)} (d : l.Nodup) {p : ℕ × ℕ}
    (h : p ∈ l) : l.count p = 1 := by
  induction l with
  | nil => cases h
  | cons a t ih =>
    have hd := List.nodup_cons.mp d
    rw [List.count_cons]
    rcases List.mem_cons.mp h with h1 | h1
    · subst h1
      rw [List.count_eq_zero.mpr hd.1, if_pos (by simp)]
    · have hne : (a == p) = false := by
        simp only [beq_eq_false_iff_ne, ne_eq]
        rintro rfl
        exact hd.1 h1
      rw [ih hd.2 h1, hne]
      simp

lemma normAngle_eq {θ : ℝ} (h1 : -Real.pi < θ) (h2 : θ ≤ Real.pi) :
    normAngle θ = if θ < 0 then θ + 2 * Real.pi else θ := by
  have hπ := Real.pi_pos
  have hb : (0 : ℝ) < 2 * Real.pi := by linarith
  have ha : (0 : ℝ) < θ + 2 * Real.pi := by linarith
  unfold normAngle jsRem jsTruncInt
  rw [if_neg (not_lt.mpr (le_of_lt (div_pos ha hb)))]
  by_cases hθ : θ < 0
  · have h0 : ⌊(θ + 2 * Real.pi) / (2 * Real.pi)⌋ = 0 := by
      rw [Int.floor_eq_zero_iff]
      exact ⟨le_of_lt (div_pos ha hb), (div_lt_one hb).mpr (by linarith)⟩
    rw [if_pos hθ, h0]
    push_cast
    ring
  · have h0 : ⌊(θ + 2 * Real.pi) / (2 * Real.pi)⌋ = 1 := by
      rw [Int.floor_eq_iff]
      constructor
      · push_cast
        rw [le_div_iff₀ hb]
        linarith [not_lt.mp hθ]
      · push_cast
        rw [div_lt_iff₀ hb]
        linarith
    rw [if_neg hθ, h0]
    push_cast
    ring

lemma normAngle_mem {θ : ℝ} (h1 : -Real.pi < θ) (h2 : θ ≤ Real.pi) :
    0 ≤ normAngle θ ∧ normAngle θ < 2 * Real.pi := by
  have hπ := Real.pi_pos
  rw [normAngle_eq h1 h2]
  split_ifs with h <;> constructor <;> linarith

lemma cycle_repIndex (s : XRState) (A : List Atom) (h : s.atoms = some A) :
    (cycleRepresentation s).repIndex = (s.repIndex + 1) % 5 ∧
      (cycleRepresentation s).atoms = some A := by
  simp [cycleRepresentation, h, repBuilders]

/-! ## Claim theorems -/

/-- C1: the initial-representation selection after a load picks exactly one
of the four size classes with the tabulated boundaries: it fails with
`StructureTooLarge` iff the atom count exceeds 50 000 (50 000 selects the
point cloud, 50 001 throws), yields point-cloud above 20 000, wireframe
spheres above 5 000, and ball-and-stick otherwise. -/
theorem selectRepresentation_size_classes : ∀ n : ℕ,
    (selectRepresentation n = .error .structureTooLarge ↔ 50000 < n)
    ∧ selectRepresentation 50000 = .ok .pointCloud
    ∧ selectRepresentation 50001 = .error .structureTooLarge
    ∧ (20000 < n → n ≤ 50000 → selectRepresentation n = .ok .pointCloud)
    ∧ (5000 < n → n ≤ 20000 → selectRepresentation n = .ok .wireframe)
    ∧ (n ≤ 5000 → selectRepresentation n = .ok .ballStick) := by
  intro n
  unfold selectRepresentation
  refine ⟨⟨?_, ?_⟩, by norm_num, by norm_num, ?_, ?_, ?_⟩
  · intro h
    split_ifs at h with h1 h2 h3
    exact h1
  · intro h
    rw [if_pos h]
  · intro h1 h2
    rw [if_neg (by omega), if_pos (by omega)]
  · intro h1 h2
    rw [if_neg (by omega), if_neg (by omega), if_pos (by omega)]
  · intro h
    rw [if_neg (by omega), if_neg (by omega), if_neg (by omega)]

theorem selectRepresentation_size_classes_witness :
    (20000 < 30000 ∧ 30000 ≤ 50000) ∧ selectRepresentation 30000 = .ok .pointCloud :=
  ⟨⟨by norm_num, by norm_num⟩,
    (selectRepresentation_size_classes 30000).2.2.2.1 (by norm_num) (by norm_num)⟩

/-- C2: with a molecule loaded, `cycleRepresentation` advances the active
index by `(repIndex + 1) % 5` through the five-builder list, keeps the
index below 5, and cycling exactly 5 times returns to the original
index (hence the original style), independent of the atom list. -/
theorem cycleRepresentation_cycles : ∀ (s : XRState) (A : List Atom),
    s.atoms = some A →
    ((cycleRepresentation s).repIndex = (s.repIndex + 1) % 5
      ∧ repBuilders.length = 5
      ∧ (cycleRepresentation s).repIndex < 5
      ∧ (s.repIndex < 5 →
          (cycleRepresentation (cycleRepresentation (cycleRepresentation
            (cycleRepresentation (cycleRepresentation s))))).repIndex = s.repIndex)) := by
  intro s A h
  obtain ⟨e1, a1⟩ := cycle_repIndex s A h
  obtain ⟨e2, a2⟩ := cycle_repIndex _ A a1
  obtain ⟨e3, a3⟩ := cycle_repIndex _ A a2
  obtain ⟨e4, a4⟩ := cycle_repIndex _ A a3
  obtain ⟨e5, _⟩ := cycle_repIndex _ A a4
  refine ⟨e1, rfl, ?_, ?_⟩
  · rw [e1]; omega
  · intro hlt
    rw [e5, e4, e3, e2, e1]
    omega

theorem cycleRepresentation_cycles_witness :
    (sampleScene.atoms = some [] ∧ sampleScene.repIndex < 5) ∧
      (cycleRepresentation (cycleRepresentation (cycleRepresentation
        (cycleRepresentation (cycleRepresentation sampleScene))))).repIndex =
        sampleScene.repIndex :=
  ⟨⟨rfl, by norm_num [sampleScene]⟩,
    (cycleRepresentation_cycles sampleScene [] rfl).2.2.2 (by norm_num [sampleScene])⟩

/-- C3: for every wedge count and thumbstick axes, the hover index the code
computes agrees with the spec formula `⌊θ / (2π/N)⌋` for `θ = atan2(x, y)`
normalized into `[0, 2π)`; below the dead-zone the hover index is `-1`. -/
theorem thumbstick_hover_matches_spec : ∀ (N : ℕ) (x y : ℝ),
    hoverIndexOf N x y = specHoverIndex N x y
    ∧ (Real.sqrt (x ^ 2 + y ^ 2) < deadZone → hoverIndexOf N x y = -1) := by
  intro N x y
  constructor
  · unfold hoverIndexOf specHoverIndex
    by_cases h : deadZone < Real.sqrt (x ^ 2 + y ^ 2)
    · rw [if_pos h, if_pos h,
        normAngle_eq (θ := jsAtan2 x y) (Complex.neg_pi_lt_arg _) (Complex.arg_le_pi _)]
    · rw [if_neg h, if_neg h]
  · intro h
    unfold hoverIndexOf
    rw [if_neg (lt_asymm h)]

theorem thumbstick_hover_matches_spec_witness :
    Real.sqrt ((0 : ℝ) ^ 2 + 0 ^ 2) < deadZone ∧ hoverIndexOf 4 0 0 = -1 := by
  have hs : Real.sqrt ((0 : ℝ) ^ 2 + 0 ^ 2) < deadZone := by
    rw [show ((0 : ℝ) ^ 2 + 0 ^ 2) = 0 by norm_num, Real.sqrt_zero]
    norm_num [deadZone]
  exact ⟨hs, (thumbstick_hover_matches_spec 4 0 0).2 hs⟩

/-- C10: for at least one wedge and a stick radius above the dead-zone, the
computed hover index lies in `0 .. N-1`, so highlighting never indexes
outside the wedge array. -/
theorem hover_index_in_range : ∀ (N : ℕ) (x y : ℝ), 1 ≤ N →
    deadZone < Real.sqrt (x ^ 2 + y ^ 2) →
    0 ≤ hoverIndexOf N x y ∧ hoverIndexOf N x y < N := by
  intro N x y hN h
  unfold hoverIndexOf
  rw [if_pos h]
  have hπ := Real.pi_pos
  obtain ⟨hn0, hn2⟩ := normAngle_mem (θ := jsAtan2 x y)
    (Complex.neg_pi_lt_arg _) (Complex.arg_le_pi _)
  have hNR : (0 : ℝ) < N := by exact_mod_cast Nat.pos_of_ne_zero (by omega)
  have hseg : (0 : ℝ) < 2 * Real.pi / N := by positivity
  constructor
  · exact Int.floor_nonneg.mpr (div_nonneg hn0 hseg.le)
  · rw [Int.floor_lt]
    push_cast
    rw [div_lt_iff₀ hseg]
    calc normAngle (jsAtan2 x y) < 2 * Real.pi := hn2
    _ = (N : ℝ) * (2 * Real.pi / N) := by field_simp

theorem hover_index_in_range_witness :
    (1 ≤ 4 ∧ deadZone < Real.sqrt ((1 : ℝ) ^ 2 + 0 ^ 2)) ∧
      (0 ≤ hoverIndexOf 4 1 0 ∧ hoverIndexOf 4 1 0 < 4) := by
  have hs : deadZone < Real.sqrt ((1 : ℝ) ^ 2 + 0 ^ 2) := by
    rw [show ((1 : ℝ) ^ 2 + 0 ^ 2) = 1 by norm_num, Real.sqrt_one]
    norm_num [deadZone]
  exact ⟨⟨by norm_num, hs⟩, hover_index_in_range 4 1 0 (by norm_num) hs⟩

/-- C4 counterexample: starting from the state in which the help panel is
already visible, toggling the same id twice does NOT end with all panels
hidden (the second toggle re-opens it), refuting the claim's "toggle(id)
called twice in succession with the same id ends with all panels hidden"
universally quantified over starting states. -/
theorem toggle_twice_not_all_hidden :
    toggle (toggle (PanelState.only .help) .help) .help ≠ PanelState.hideAll := by
  decide

/-- C4 (amended): `toggle(id)` hides every panel and shows the target only
if it was not already visible; toggling the same id twice restores the
target to its original visibility with every other panel hidden — hence
ends all-hidden exactly when the target started hidden; toggling two
different ids in succession ends with only the second visible; after any
toggle at most one panel is visible. -/
theorem toggle_switch_spec : ∀ (s : PanelState) (a b : PanelId),
    ((toggle (toggle s a) a).visible a = s.visible a)
    ∧ (a ≠ b → (toggle (toggle s a) a).visible b = false)
    ∧ (s.visible a = false → toggle (toggle s a) a = PanelState.hideAll)
    ∧ (a ≠ b → toggle (toggle s a) b = PanelState.only b)
    ∧ visibleCount (toggle s a) ≤ 1 := by
  intro s a b
  obtain ⟨h1, h2, h3, h4⟩ := s
  revert h1 h2 h3 h4
  cases a <;> cases b <;> decide

theorem toggle_switch_spec_witness :
    (PanelState.hideAll.visible .help = false ∧ PanelId.help ≠ PanelId.settings) ∧
      (toggle (toggle PanelState.hideAll .help) .help = PanelState.hideAll ∧
        toggle (toggle PanelState.hideAll .help) .settings = PanelState.only .settings) :=
  ⟨⟨rfl, by decide⟩,
    (toggle_switch_spec PanelState.hideAll .help .settings).2.2.1 rfl,
    (toggle_switch_spec PanelState.hideAll .help .settings).2.2.2.1 (by decide)⟩

/-- C5 (code bug): one transition frame for a molecule fitted with
`moleculeScale = 1/10`.  Before completion the incoming scale follows the
lerp towards the target scale (at elapsed 0.4 s it is 401/5000, on the way
to 1/10), but the completing frame at elapsed 0.5 s snaps the incoming
group to absolute scale `1` — not to 100 % of the target scale
`moleculeScale` — while removing the outgoing group and clearing the
transition. -/
theorem transition_snap_divergence :
    (transitionStep sampleTransition (2 / 5)).newScale = 401 / 5000
    ∧ (transitionStep sampleTransition (1 / 2)).newScale = 1
    ∧ (transitionStep sampleTransition (1 / 2)).oldActive = false
    ∧ (transitionStep sampleTransition (1 / 2)).newActive = false
    ∧ (1 : ℚ) ≠ sampleTransition.moleculeScale := by
  decide

/-- C9: `PdbInputPanel.select` keeps the entered id at most 4 characters
long, appending is a no-op at length 4, and backspace on the empty text
leaves it empty. -/
theorem pdbInput_length_invariant : ∀ (text : List Char) (key : Option Char),
    text.length ≤ 4 →
    ((pdbInputSelect text key).length ≤ 4
      ∧ (∀ c : Char, text.length = 4 → c ≠ '←' → c ≠ 'L' →
          pdbInputSelect text (some c) = text)
      ∧ pdbInputSelect [] (some '←') = []) := by
  intro text key hlen
  refine ⟨?_, ?_, rfl⟩
  · match key with
    | none => simpa [pdbInputSelect] using hlen
    | some c =>
      by_cases hc1 : c = '←'
      · simp only [pdbInputSelect, if_pos hc1]
        rw [List.length_dropLast]
        omega
      · by_cases hc2 : c = 'L'
        · simpa [pdbInputSelect, hc1, hc2] using hlen
        · by_cases hc3 : text.length < 4
          · simp only [pdbInputSelect, if_neg hc1, if_neg hc2, if_pos hc3,
              List.length_append, List.length_cons, List.length_nil]
            omega
          · simpa [pdbInputSelect, hc1, hc2, hc3] using hlen
  · intro c h4 hc1 hc2
    simp only [pdbInputSelect]
    rw [if_neg hc1, if_neg hc2, if_neg (by omega)]

theorem pdbInput_length_invariant_witness :
    (['1', 'C', 'R', 'N'] : List Char).length ≤ 4 ∧
      ((pdbInputSelect ['1', 'C', 'R', 'N'] (some 'A')).length ≤ 4 ∧
        pdbInputSelect ['1', 'C', 'R', 'N'] (some 'A') = ['1', 'C', 'R', 'N']) := by
  have h := pdbInput_length_invariant ['1', 'C', 'R', 'N'] (some 'A') (by decide)
  exact ⟨by decide, h.1, h.2.1 'A' (by decide) (by decide) (by decide)⟩

/-- C6: below 2000 atoms, `createBallStick` creates exactly one bond
cylinder for an index pair iff the pair's Euclidean distance is (strictly)
within 1.8 model units; two atoms 1.79 apart bond once, two atoms 1.81
apart do not; at 2000 atoms or more no bonds are created at all. -/
theorem ballStick_bond_iff :
    (∀ (atoms : List Atom) (i j : ℕ) (a b : Atom) (ax ay az bx bw bz : ℚ),
      atoms.length < 2000 → i < j →
      atoms[i]? = some a → atoms[j]? = some b →
      a.x = some ax → a.y = some ay → a.z = some az →
      b.x = some bx → b.y = some bw → b.z = some bz →
      (((ballStickBonds atoms).count (i, j) = 1) ↔
        Real.sqrt (((ax : ℝ) - bx) ^ 2 + ((ay : ℝ) - bw) ^ 2 + ((az : ℝ) - bz) ^ 2)
          < 18 / 10))
    ∧ (∀ atoms : List Atom, 2000 ≤ atoms.length → ballStickBonds atoms = [])
    ∧ ballStickBonds [mkAtom 0 0 0 "N", mkAtom (179 / 100) 0 0 "C"] = [(0, 1)]
    ∧ ballStickBonds [mkAtom 0 0 0 "N", mkAtom (181 / 100) 0 0 "C"] = [] := by
  refine ⟨?_, ?_, by decide, by decide⟩
  · intro atoms i j a b ax ay az bx bw bz hlen hij hga hgb hax hay haz hbx hbw hbz
    have hj : j < atoms.length := (List.getElem?_eq_some.mp hgb).1
    have hdist : dist2 a b
        = some ((ax - bx) * (ax - bx) + (ay - bw) * (ay - bw) + (az - bz) * (az - bz)) := by
      simp [dist2, jsSub, jsMul, jsAdd, hax, hay, haz, hbx, hbw, hbz]
    have hbonds : ballStickBonds atoms
        = (allIndexPairs atoms.length).filter (fun p =>
            match atoms[p.1]?, atoms[p.2]? with
            | some a, some b => jsLtb (dist2 a b) (some bondCutoffSq)
            | _, _ => false) := by
      unfold ballStickBonds
      rw [if_pos hlen]
    have hmem : (i, j) ∈ allIndexPairs atoms.length := mem_allIndexPairs.mpr ⟨hij, hj⟩
    have hnd := (nodup_allIndexPairs atoms.length).filter (fun p : ℕ × ℕ =>
      match atoms[p.1]?, atoms[p.2]? with
      | some a, some b => jsLtb (dist2 a b) (some bondCutoffSq)
      | _, _ => false)
    have hPij : ((fun p : ℕ × ℕ =>
        match atoms[p.1]?, atoms[p.2]? with
        | some a, some b => jsLtb (dist2 a b) (some bondCutoffSq)
        | _, _ => false) (i, j) = true)
        ↔ ((ax - bx) * (ax - bx) + (ay - bw) * (ay - bw) + (az - bz) * (az - bz)
            < bondCutoffSq) := by
      simp only [hga, hgb, hdist, jsLtb, decide_eq_true_eq]
    have hQ : ((ax - bx) * (ax - bx) + (ay - bw) * (ay - bw) + (az - bz) * (az - bz)
          < bondCutoffSq)
        ↔ Real.sqrt (((ax : ℝ) - bx) ^ 2 + ((ay : ℝ) - bw) ^ 2 + ((az : ℝ) - bz) ^ 2)
          < 18 / 10 := by
      rw [Real.sqrt_lt' (by norm_num : (0 : ℝ) < 18 / 10)]
      rw [show (((ax : ℝ) - bx) ^ 2 + ((ay : ℝ) - bw) ^ 2 + ((az : ℝ) - bz) ^ 2)
          = (((ax - bx) * (ax - bx) + (ay - bw) * (ay - bw) + (az - bz) * (az - bz) : ℚ) : ℝ)
          by push_cast; ring]
      rw [show ((18 : ℝ) / 10) ^ 2 = ((bondCutoffSq : ℚ) : ℝ) by
        rw [bondCutoffSq]; push_cast; ring]
      exact Rat.cast_lt.symm
    rw [hbonds]
    rw [← hQ, ← hPij]
    constructor
    · intro hc
      by_contra hp
      have hnm : (i, j) ∉ (allIndexPairs atoms.length).filter (fun p : ℕ × ℕ =>
          match atoms[p.1]?, atoms[p.2]? with
          | some a, some b => jsLtb (dist2 a b) (some bondCutoffSq)
          | _, _ => false) := fun hm => hp (List.mem_filter.mp hm).2
      rw [List.count_eq_zero.mpr hnm] at hc
      exact absurd hc (by decide)
    · intro hp
      exact count_eq_one_of_nodup_mem hnd (List.mem_filter.mpr ⟨hmem, hp⟩)
  · intro atoms h2000
    unfold ballStickBonds
    rw [if_neg (by omega)]

theorem ballStick_bond_iff_witness :
    (([mkAtom 0 0 0 "N", mkAtom (179 / 100) 0 0 "C"] : List Atom).length < 2000
      ∧ (0 : ℕ) < 1)
    ∧ (((ballStickBonds [mkAtom 0 0 0 "N", mkAtom (179 / 100) 0 0 "C"]).count (0, 1) = 1) ↔
        Real.sqrt ((((0 : ℚ) : ℝ) - ((179 / 100 : ℚ) : ℝ)) ^ 2
          + (((0 : ℚ) : ℝ) - ((0 : ℚ) : ℝ)) ^ 2
          + (((0 : ℚ) : ℝ) - ((0 : ℚ) : ℝ)) ^ 2) < 18 / 10) :=
  ⟨⟨by decide, by decide⟩,
    ballStick_bond_iff.1 [mkAtom 0 0 0 "N", mkAtom (179 / 100) 0 0 "C"] 0 1
      (mkAtom 0 0 0 "N") (mkAtom (179 / 100) 0 0 "C") 0 0 0 (179 / 100) 0 0
      (by decide) (by decide) rfl rfl rfl rfl rfl rfl rfl rfl⟩

/-- C7 counterexample: the line `"ATOMIC"` has leading token `"ATOMIC"`,
which is neither record marker, yet `parsePDB` treats it as an atom record
(`startsWith` is a prefix test, not a token comparison) and contributes one
atom — refuting "every line whose leading token is neither of the two
record markers contributes no atom". -/
theorem parse_leading_token_counterexample :
    (parsePDB "ATOMIC").length = 1
      ∧ firstToken "ATOMIC" ≠ "ATOM" ∧ firstToken "ATOMIC" ≠ "HETATM" := by
  refine ⟨by decide, by decide, by decide⟩

/-- C7 (amended): parsing the single-ATOM-record blob yields exactly one
atom with element `"N"` and position `(11.104, 13.207, 2.031)`, and every
line that does not start (as a string prefix) with either record marker
contributes no atom — so a line whose leading token merely extends a
marker, such as `"ATOMIC"`, is still treated as an atom record. -/
theorem parsePDB_single_record :
    parsePDB singleAtomBlob
      = [{ x := some (11104 / 1000), y := some (13207 / 1000), z := some (2031 / 1000),
           element := "N" }]
    ∧ (∀ line : List Char, jsStartsWith line "ATOM".toList = false →
        jsStartsWith line "HETATM".toList = false →
        parseAtomLine line = none) := by
  constructor
  · decide
  · intro line h1 h2
    unfold parseAtomLine
    rw [h1, h2]
    simp

theorem parsePDB_single_record_witness :
    (jsStartsWith "REMARK remark".toList "ATOM".toList = false
        ∧ jsStartsWith "REMARK remark".toList "HETATM".toList = false)
      ∧ parseAtomLine "REMARK remark".toList = none :=
  ⟨⟨by decide, by decide⟩,
    parsePDB_single_record.2 "REMARK remark".toList (by decide) (by decide)⟩

/-- C8: the structure URL is the well-known per-id address formed by
uppercasing the id; a non-success response fails with `FetchFailed`; and
any load failure is caught at the `loadPdbId` boundary, leaving the
previously displayed molecule state — atoms, representation index, render
group, scene and disposal lists — entirely unchanged. -/
theorem load_failure_preserves_molecule :
    ∀ (s : XRState) (id : String) (resp : FetchResponse) (h : ℚ),
      pdbUrl "1abc" = "https://files.rcsb.org/download/1ABC.pdb"
      ∧ (resp.ok = false → loadPDB id resp = .error .fetchFailed)
      ∧ (∀ e, loadPDB (String.mk (jsTrim id.toList)) resp = .error e →
          loadPdbId s id resp h = s) := by
  intro s id resp h
  refine ⟨by decide, ?_, ?_⟩
  · intro hok
    simp [loadPDB, hok]
  · intro e he
    unfold loadPdbId
    rw [he]

theorem load_failure_preserves_molecule_witness :
    (failedResponse.ok = false
        ∧ loadPDB (String.mk (jsTrim "2xyz".toList)) failedResponse = .error .fetchFailed)
      ∧ loadPdbId sampleScene "2xyz" failedResponse 1 = sampleScene := by
  have hfail : loadPDB (String.mk (jsTrim "2xyz".toList)) failedResponse
      = .error .fetchFailed := rfl
  exact ⟨⟨rfl, hfail⟩,
    (load_failure_preserves_molecule sampleScene "2xyz" failedResponse 1).2.2
      .fetchFailed hfail⟩

end FoldVR
